import Mathlib

/-!
# Verification of the `boxext` crate's allocation/construction protocol

Shallow embedding of `src/lib.rs` of the `boxext` crate.  The crate adds
initializer methods to `Box`: `new_with`, `new_zeroed`, `try_new`,
`try_new_with`, `try_new_zeroed`, all built on one raw primitive
`try_new_box` (lib.rs lines 286-300) and its aborting wrapper `new_box`
(lines 302-305).

Modelling choices:
* The platform allocator is an oracle with two entry points, `alloc` and
  `allocZeroed` (std's `alloc` / `alloc_zeroed`), each mapping a layout to an
  address; address `0` models a null return (allocation failure).
* Memory returned by `alloc_zeroed` is all-zero bytes; memory from `alloc` is
  uninitialized.  A box carries its own contents (each box exclusively owns
  its storage, so no global heap is needed).
* Every operation also returns the list of externally visible events it
  performed (allocator calls, producer invocation, `handle_alloc_error`), in
  order, so that claims about which allocator entry point is used and about
  call ordering are statable.
* Process termination by `handle_alloc_error` and panic unwinding are
  modelled as distinguished outcome constructors; the unwinding outcome
  records the contents every destructor (drop glue) ran on, since during
  unwinding the local `Box` is dropped.
-/

namespace Boxext

/-- Bytes are modelled as naturals; zero-fill writes the byte `0`. -/
abbrev Byte := Nat

/-- `std::alloc::Layout`: the (size, align) allocation descriptor of a type
(`Layout::new::<T>()` at lib.rs line 287). -/
structure Layout where
  size : Nat
  align : Nat
deriving DecidableEq, Repr

/-- The platform allocator oracle: `alloc` and `alloc_zeroed`, each returning
an address, with `0` standing for the null pointer (failure). -/
structure Allocator where
  alloc : Layout → Nat
  allocZeroed : Layout → Nat

/-- Externally visible events of one construction call, in order. -/
inductive Event where
  /-- A call to the plain `alloc` entry point of the platform allocator. -/
  | allocCall (l : Layout)
  /-- A call to the dedicated `alloc_zeroed` entry point. -/
  | allocZeroedCall (l : Layout)
  /-- A separate zeroing pass over already-allocated memory (memset).  The
  source never performs one; the constructor exists so its absence is a
  statable property. -/
  | memsetCall (addr : Nat) (len : Nat)
  /-- An invocation of the caller-supplied producer closure. -/
  | producerCall
  /-- A call to `std::alloc::handle_alloc_error` with the failed layout. -/
  | handleAllocErrorCall (l : Layout)
deriving DecidableEq, Repr

/-- Contents of a box's storage: either uninitialized, or a concrete byte
string. -/
inductive Contents where
  | uninit
  | bytes (bs : List Byte)
deriving DecidableEq, Repr

/-- An owned heap value as returned by the crate: its address and the current
contents of its storage. -/
structure BoxM where
  addr : Nat
  contents : Contents
deriving DecidableEq, Repr

/-- `ptr::NonNull::<T>::dangling()` (lib.rs line 289): the sentinel address
used for zero-sized types, equal to the type's alignment. -/
def dangling (l : Layout) : Nat :=
  l.align

/-- The three-way branch of `try_new_box` (lib.rs lines 288-294) computing the
raw pointer: dangling sentinel for size 0, `alloc_zeroed` when zero-fill is
requested, `alloc` otherwise.  Returns the address, the contents of the
storage behind it, and the allocator events performed. -/
def rawAlloc (A : Allocator) (l : Layout) (zeroed : Bool) :
    Nat × Contents × List Event :=
  if l.size = 0 then
    (dangling l, Contents.bytes [], [])
  else if zeroed then
    (A.allocZeroed l, Contents.bytes (List.replicate l.size 0),
      [Event.allocZeroedCall l])
  else
    (A.alloc l, Contents.uninit, [Event.allocCall l])

/-- `try_new_box` (lib.rs lines 286-300): compute the layout, run the
three-way allocation branch, then null-check the raw pointer, giving either a
box or the failed layout. -/
def try_new_box (A : Allocator) (l : Layout) (zeroed : Bool) :
    Except Layout BoxM × List Event :=
  let r := rawAlloc A l zeroed
  if r.1 ≠ 0 then
    (Except.ok ⟨r.1, r.2.1⟩, r.2.2)
  else
    (Except.error l, r.2.2)

/-- Result of the infallible raw wrapper: a box, or process termination via
`handle_alloc_error`. -/
inductive NewBoxResult where
  | ok (b : BoxM)
  /-- The process was terminated by `handle_alloc_error l`. -/
  | aborted (l : Layout)
deriving DecidableEq, Repr

/-- `new_box` (lib.rs lines 302-305):
`try_new_box::<T>(zeroed).unwrap_or_else(|l| handle_alloc_error(l))`. -/
def new_box (A : Allocator) (l : Layout) (zeroed : Bool) :
    NewBoxResult × List Event :=
  match try_new_box A l zeroed with
  | (Except.ok b, evs) => (NewBoxResult.ok b, evs)
  | (Except.error l', evs) =>
      (NewBoxResult.aborted l', evs ++ [Event.handleAllocErrorCall l'])

/-- Result of invoking a producer closure: a value, or a panic before
returning. -/
inductive ProdResult (α : Type) where
  | val (v : α)
  | panic
deriving DecidableEq, Repr

/-- A caller-supplied zero-argument producer (`F: FnOnce() -> T`). -/
def Producer (α : Type) : Type :=
  Unit → ProdResult α

/-- Semantic model of the Rust type `T` stored in the box: its layout and the
correspondence between semantic values and byte representations. -/
structure RustTy (α : Type) where
  layout : Layout
  /-- Byte representation of a value. -/
  encode : α → List Byte
  /-- Semantic reading of a byte string, when it is a valid representation. -/
  decode : List Byte → Option α
  /-- Reading back a written value yields that value. -/
  decode_encode : ∀ v, decode (encode v) = some v

/-- The `Zero` capability (lib.rs line 427, `pub unsafe trait Zero`) for a
type model: the all-zero byte string of the type's size is a valid
representation and denotes the type's zero value. -/
structure ZeroCap {α : Type} (T : RustTy α) where
  zeroVal : α
  decode_zeros : T.decode (List.replicate T.layout.size 0) = some zeroVal
  encode_zero : T.encode zeroVal = List.replicate T.layout.size 0

/-- Outcome of one typed construction entry point. -/
inductive Outcome (α : Type) where
  /-- Normal return of an owned box (for fallible entry points, `Some`). -/
  | success (b : BoxM)
  /-- A fallible entry point returned `None`. -/
  | retNone
  /-- The process was terminated by `handle_alloc_error l`. -/
  | aborted (l : Layout)
  /-- The producer panicked and the panic propagated; `drops` records the
  contents each destructor run during unwinding operated on. -/
  | unwound (drops : List Contents)
deriving DecidableEq, Repr

/-- `Box::try_new` (lib.rs lines 328-335): raw-allocate uninitialized, return
`None` on failure, otherwise `ptr::write` the given value and return the
box. -/
def try_new {α : Type} (A : Allocator) (T : RustTy α) (x : α) :
    Outcome α × List Event :=
  match try_new_box A T.layout false with
  | (Except.error _, evs) => (Outcome.retNone, evs)
  | (Except.ok b, evs) =>
      (Outcome.success ⟨b.addr, Contents.bytes (T.encode x)⟩, evs)

/-- `Box::try_new_with` (lib.rs lines 337-344): raw-allocate uninitialized,
return `None` on failure, otherwise invoke the producer and `ptr::write` its
result.  If the producer panics, the local box (still holding uninitialized
storage) is dropped during unwinding, running the type's drop glue on that
storage. -/
def try_new_with {α : Type} (A : Allocator) (T : RustTy α) (f : Producer α) :
    Outcome α × List Event :=
  match try_new_box A T.layout false with
  | (Except.error _, evs) => (Outcome.retNone, evs)
  | (Except.ok b, evs) =>
      match f () with
      | ProdResult.val v =>
          (Outcome.success ⟨b.addr, Contents.bytes (T.encode v)⟩,
            evs ++ [Event.producerCall])
      | ProdResult.panic =>
          (Outcome.unwound [b.contents], evs ++ [Event.producerCall])

/-- `Box::new_with` (lib.rs lines 311-318): like `try_new_with` but built on
the aborting `new_box`. -/
def new_with {α : Type} (A : Allocator) (T : RustTy α) (f : Producer α) :
    Outcome α × List Event :=
  match new_box A T.layout false with
  | (NewBoxResult.aborted l, evs) => (Outcome.aborted l, evs)
  | (NewBoxResult.ok b, evs) =>
      match f () with
      | ProdResult.val v =>
          (Outcome.success ⟨b.addr, Contents.bytes (T.encode v)⟩,
            evs ++ [Event.producerCall])
      | ProdResult.panic =>
          (Outcome.unwound [b.contents], evs ++ [Event.producerCall])

/-- `Box::new_zeroed` (lib.rs lines 320-326): `new_box(true)`.  The `T: Zero`
bound is the `Z` argument; the computation does not inspect it, mirroring
that the trait is a compile-time gate with no runtime content. -/
def new_zeroed {α : Type} (A : Allocator) (T : RustTy α) (_Z : ZeroCap T) :
    Outcome α × List Event :=
  match new_box A T.layout true with
  | (NewBoxResult.aborted l, evs) => (Outcome.aborted l, evs)
  | (NewBoxResult.ok b, evs) => (Outcome.success b, evs)

/-- `Box::try_new_zeroed` (lib.rs lines 346-352): `try_new_box(true).ok()`. -/
def try_new_zeroed {α : Type} (A : Allocator) (T : RustTy α) (_Z : ZeroCap T) :
    Outcome α × List Event :=
  match try_new_box A T.layout true with
  | (Except.error _, evs) => (Outcome.retNone, evs)
  | (Except.ok b, evs) => (Outcome.success b, evs)

/-! ### The set of `Zero` trait implementations (lib.rs lines 429-488) -/

/-- Syntax of the Rust types over which the crate's `Zero` implementations
range: the primitive numeric types listed in `zero_num_impl!`, the two raw
pointer shapes, fixed-size arrays, and tuples. -/
inductive RTy where
  | u8 | u16 | u32 | u64 | usize
  | i8 | i16 | i32 | i64 | isize
  | f32 | f64
  /-- `*mut T` for any pointee (the impl is generic in `T`). -/
  | mutPtr
  /-- `*const T` for any pointee. -/
  | constPtr
  /-- `[elem; n]`. -/
  | array (elem : RTy) (n : Nat)
  /-- `(c1, ..., ck)`. -/
  | tuple (comps : List RTy)

/-- The array lengths for which `zero_array_impl!` is invoked (lib.rs lines
449-471), taking both `cfg` groups as on a 64-bit target. -/
def arraySizes : List Nat :=
  [1, 2, 3, 4, 5, 6, 7, 8, 9, 10, 11, 12, 13, 14, 15, 16,
   17, 18, 19, 20, 21, 22, 23, 24, 25, 26, 27, 28, 29, 30, 31, 32,
   33, 34, 35, 36, 37, 38, 39, 40, 41, 42, 43, 44, 45, 46, 47, 48,
   49, 50, 51, 52, 53, 54, 55, 56, 57, 58, 59, 60, 61, 62, 63, 64,
   65, 66, 67, 68, 69, 70, 71, 72, 73, 74, 75, 76, 77, 78, 79, 80,
   81, 82, 83, 84, 85, 86, 87, 88, 89, 90, 91, 92, 93, 94, 95, 96,
   97, 98, 99, 100, 101, 102, 103, 104, 105, 106, 107, 108, 109, 110,
   111, 112, 113, 114, 115, 116, 117, 118, 119, 120, 121, 122, 123, 124,
   125, 126, 127, 128,
   160, 192, 200, 224, 256, 384, 512, 768, 1024, 2048, 4096, 8192,
   16384, 32768,
   65536, 131072, 262144, 524288, 1048576, 2097152, 4194304, 8388608,
   16777216, 33554432, 67108864, 134217728, 268435456, 536870912,
   1073741824, 2147483648,
   4294967296]

mutual

/-- Whether the crate declares `Zero` for a type: all listed numerics and raw
pointers unconditionally; `[T; n]` when `n` is one of the `zero_array_impl!`
lengths and `T` is capable; tuples of arity 1 through 12 (the
`zero_tuple_impl! { A B C D E F G H I J K L }` expansion) when every
component is capable. -/
def hasZero : RTy → Bool
  | RTy.u8 | RTy.u16 | RTy.u32 | RTy.u64 | RTy.usize => true
  | RTy.i8 | RTy.i16 | RTy.i32 | RTy.i64 | RTy.isize => true
  | RTy.f32 | RTy.f64 => true
  | RTy.mutPtr | RTy.constPtr => true
  | RTy.array elem n => decide (n ∈ arraySizes) && hasZero elem
  | RTy.tuple comps =>
      decide (1 ≤ comps.length) && decide (comps.length ≤ 12) &&
        hasZeroList comps

/-- All types in the list are capable. -/
def hasZeroList : List RTy → Bool
  | [] => true
  | c :: cs => hasZero c && hasZeroList cs

end

theorem hasZeroList_iff (cs : List RTy) :
    hasZeroList cs = true ↔ ∀ c ∈ cs, hasZero c = true := by
  induction cs with
  | nil => simp [hasZeroList]
  | cons c cs ih => simp [hasZeroList, ih]

/-! ### Concrete type models used to witness the theorems -/

/-- Model of `u8`: one byte, identity encoding. -/
def byteTy : RustTy Nat where
  layout := ⟨1, 1⟩
  encode := fun v => [v]
  decode := fun bs =>
    match bs with
    | [b] => some b
    | _ => none
  decode_encode := fun _ => rfl

/-- The `Zero` capability of the `u8` model. -/
def byteZero : ZeroCap byteTy where
  zeroVal := 0
  decode_zeros := rfl
  encode_zero := rfl

/-- Model of a zero-sized marker type. -/
def unitTy : RustTy Unit where
  layout := ⟨0, 1⟩
  encode := fun _ => []
  decode := fun bs =>
    match bs with
    | [] => some ()
    | _ => none
  decode_encode := fun _ => rfl

/-- The `Zero` capability of the zero-sized model. -/
def unitZero : ZeroCap unitTy where
  zeroVal := ()
  decode_zeros := rfl
  encode_zero := rfl

/-- An allocator that always succeeds. -/
def okAlloc : Allocator where
  alloc := fun _ => 1000
  allocZeroed := fun _ => 2000

/-- An allocator that always fails (returns null). -/
def failAlloc : Allocator where
  alloc := fun _ => 0
  allocZeroed := fun _ => 0

/-! ### Characterization lemmas for the raw primitive -/

theorem try_new_box_zst (A : Allocator) (l : Layout) (z : Bool)
    (hsz : l.size = 0) (hal : 0 < l.align) :
    try_new_box A l z = (Except.ok ⟨l.align, Contents.bytes []⟩, []) := by
  have : l.align ≠ 0 := Nat.pos_iff_ne_zero.mp hal
  simp [try_new_box, rawAlloc, dangling, hsz, this]

theorem try_new_box_zeroed_success (A : Allocator) (l : Layout)
    (hsz : l.size ≠ 0) (h : A.allocZeroed l ≠ 0) :
    try_new_box A l true =
      (Except.ok ⟨A.allocZeroed l, Contents.bytes (List.replicate l.size 0)⟩,
        [Event.allocZeroedCall l]) := by
  simp [try_new_box, rawAlloc, hsz, h]

theorem try_new_box_zeroed_fail (A : Allocator) (l : Layout)
    (hsz : l.size ≠ 0) (h : A.allocZeroed l = 0) :
    try_new_box A l true = (Except.error l, [Event.allocZeroedCall l]) := by
  simp [try_new_box, rawAlloc, hsz, h]

theorem try_new_box_alloc_success (A : Allocator) (l : Layout)
    (hsz : l.size ≠ 0) (h : A.alloc l ≠ 0) :
    try_new_box A l false =
      (Except.ok ⟨A.alloc l, Contents.uninit⟩, [Event.allocCall l]) := by
  simp [try_new_box, rawAlloc, hsz, h]

theorem try_new_box_alloc_fail (A : Allocator) (l : Layout)
    (hsz : l.size ≠ 0) (h : A.alloc l = 0) :
    try_new_box A l false = (Except.error l, [Event.allocCall l]) := by
  simp [try_new_box, rawAlloc, hsz, h]

/-- Case analysis on the raw primitive: it either returns a box whose address
and contents come from `rawAlloc`, with a non-null address, or it fails with
the requested layout; in both cases the events are those of `rawAlloc`. -/
theorem try_new_box_cases (A : Allocator) (l : Layout) (z : Bool) :
    (try_new_box A l z =
        (Except.ok ⟨(rawAlloc A l z).1, (rawAlloc A l z).2.1⟩,
          (rawAlloc A l z).2.2) ∧ (rawAlloc A l z).1 ≠ 0)
  ∨ (try_new_box A l z = (Except.error l, (rawAlloc A l z).2.2)
      ∧ (rawAlloc A l z).1 = 0) := by
  by_cases h : (rawAlloc A l z).1 = 0
  · right
    exact ⟨by simp [try_new_box, h], h⟩
  · left
    exact ⟨by simp [try_new_box, h], h⟩

/-- The contents produced by `rawAlloc` in non-zero-fill mode are never a
partially written byte string: uninitialized for a real allocation, the empty
byte string for a zero-sized type. -/
theorem rawAlloc_false_contents (A : Allocator) (l : Layout) :
    (rawAlloc A l false).2.1 = Contents.uninit
      ∨ (l.size = 0 ∧ (rawAlloc A l false).2.1 = Contents.bytes []) := by
  by_cases h : l.size = 0
  · right
    exact ⟨h, by simp [rawAlloc, h]⟩
  · left
    simp [rawAlloc, h]

theorem rawAlloc_true_contents (A : Allocator) (l : Layout) :
    (rawAlloc A l true).2.1 = Contents.bytes (List.replicate l.size 0) := by
  by_cases h : l.size = 0
  · simp [rawAlloc, h]
  · simp [rawAlloc, h]

example : (try_new okAlloc byteTy 5).1 = Outcome.success ⟨1000, Contents.bytes [5]⟩ := rfl
example : (try_new failAlloc byteTy 5).1 = Outcome.retNone := rfl
example : (new_zeroed okAlloc byteTy byteZero).1
    = Outcome.success ⟨2000, Contents.bytes [0]⟩ := rfl
example : (new_zeroed failAlloc byteTy byteZero).1 = Outcome.aborted ⟨1, 1⟩ := rfl
example : (try_new_with okAlloc byteTy (fun _ => ProdResult.panic)).1
    = Outcome.unwound [Contents.uninit] := rfl
example : (try_new_with okAlloc unitTy (fun _ => ProdResult.val ())).1
    = Outcome.success ⟨1, Contents.bytes []⟩ := rfl

/-! ### The claims -/

/-- C1: for every type with the `Zero` capability, `new_zeroed` and (on
success) `try_new_zeroed` return an owned heap value whose byte
representation is all-zero and whose semantic value is the type's zero
value, without invoking any producer/constructor logic. -/
theorem c1_construct_zeroed_all_zero_bytes {α : Type} (A : Allocator)
    (T : RustTy α) (Z : ZeroCap T) (hal : 0 < T.layout.align)
    (hA : T.layout.size = 0 ∨ A.allocZeroed T.layout ≠ 0) :
    (∃ b evs, new_zeroed A T Z = (Outcome.success b, evs)
      ∧ b.contents = Contents.bytes (List.replicate T.layout.size 0)
      ∧ T.decode (List.replicate T.layout.size 0) = some Z.zeroVal
      ∧ Event.producerCall ∉ evs)
  ∧ (∃ b evs, try_new_zeroed A T Z = (Outcome.success b, evs)
      ∧ b.contents = Contents.bytes (List.replicate T.layout.size 0)
      ∧ T.decode (List.replicate T.layout.size 0) = some Z.zeroVal
      ∧ Event.producerCall ∉ evs) := by
  by_cases hsz : T.layout.size = 0
  · have htb := try_new_box_zst A T.layout true hsz hal
    refine ⟨⟨⟨T.layout.align, Contents.bytes []⟩, [], ?_, ?_, Z.decode_zeros, ?_⟩,
      ⟨⟨T.layout.align, Contents.bytes []⟩, [], ?_, ?_, Z.decode_zeros, ?_⟩⟩
    · simp [new_zeroed, new_box, htb]
    · simp [hsz]
    · simp
    · simp [try_new_zeroed, htb]
    · simp [hsz]
    · simp
  · have hnz : A.allocZeroed T.layout ≠ 0 := hA.resolve_left hsz
    have htb := try_new_box_zeroed_success A T.layout hsz hnz
    refine ⟨⟨⟨A.allocZeroed T.layout, Contents.bytes (List.replicate T.layout.size 0)⟩,
        [Event.allocZeroedCall T.layout], ?_, rfl, Z.decode_zeros, ?_⟩,
      ⟨⟨A.allocZeroed T.layout, Contents.bytes (List.replicate T.layout.size 0)⟩,
        [Event.allocZeroedCall T.layout], ?_, rfl, Z.decode_zeros, ?_⟩⟩
    · simp [new_zeroed, new_box, htb]
    · simp
    · simp [try_new_zeroed, htb]
    · simp

/-- Witness for C1: the `u8` model under an always-succeeding allocator. -/
theorem c1_witness :
    (∃ b evs, new_zeroed okAlloc byteTy byteZero = (Outcome.success b, evs)
      ∧ b.contents = Contents.bytes (List.replicate byteTy.layout.size 0)
      ∧ byteTy.decode (List.replicate byteTy.layout.size 0) = some byteZero.zeroVal
      ∧ Event.producerCall ∉ evs)
  ∧ (∃ b evs, try_new_zeroed okAlloc byteTy byteZero = (Outcome.success b, evs)
      ∧ b.contents = Contents.bytes (List.replicate byteTy.layout.size 0)
      ∧ byteTy.decode (List.replicate byteTy.layout.size 0) = some byteZero.zeroVal
      ∧ Event.producerCall ∉ evs) :=
  c1_construct_zeroed_all_zero_bytes okAlloc byteTy byteZero (by decide)
    (Or.inr (by decide))

/-- C2: the fallible entry points return `None` when the platform allocator
signals failure, never terminate the process, and never return a partially
constructed value; on success the returned box holds the fully written
value (respectively the all-zero bytes). -/
theorem c2_fallible_none_on_alloc_failure {α : Type} (A : Allocator)
    (T : RustTy α) (Z : ZeroCap T) (x : α) (f : Producer α) :
    (T.layout.size ≠ 0 → A.alloc T.layout = 0 →
        (try_new A T x).1 = Outcome.retNone
      ∧ (try_new_with A T f).1 = Outcome.retNone)
  ∧ (T.layout.size ≠ 0 → A.allocZeroed T.layout = 0 →
        (try_new_zeroed A T Z).1 = Outcome.retNone)
  ∧ (∀ l, (try_new A T x).1 ≠ Outcome.aborted l
      ∧ (try_new_with A T f).1 ≠ Outcome.aborted l
      ∧ (try_new_zeroed A T Z).1 ≠ Outcome.aborted l)
  ∧ (∀ b, (try_new A T x).1 = Outcome.success b →
      b.contents = Contents.bytes (T.encode x))
  ∧ (∀ b, (try_new_with A T f).1 = Outcome.success b →
      ∃ v, f () = ProdResult.val v ∧ b.contents = Contents.bytes (T.encode v))
  ∧ (∀ b, (try_new_zeroed A T Z).1 = Outcome.success b →
      b.contents = Contents.bytes (List.replicate T.layout.size 0)) := by
  refine ⟨?_, ?_, ?_, ?_, ?_, ?_⟩
  · intro hsz h
    have htb := try_new_box_alloc_fail A T.layout hsz h
    exact ⟨by simp [try_new, htb], by simp [try_new_with, htb]⟩
  · intro hsz h
    have htb := try_new_box_zeroed_fail A T.layout hsz h
    simp [try_new_zeroed, htb]
  · intro l
    refine ⟨?_, ?_, ?_⟩
    · rcases try_new_box_cases A T.layout false with ⟨heq, _⟩ | ⟨heq, _⟩
      · simp [try_new, heq]
      · simp [try_new, heq]
    · rcases try_new_box_cases A T.layout false with ⟨heq, _⟩ | ⟨heq, _⟩
      · cases hf : f () with
        | val v => simp [try_new_with, heq, hf]
        | panic => simp [try_new_with, heq, hf]
      · simp [try_new_with, heq]
    · rcases try_new_box_cases A T.layout true with ⟨heq, _⟩ | ⟨heq, _⟩
      · simp [try_new_zeroed, heq]
      · simp [try_new_zeroed, heq]
  · intro b hb
    rcases try_new_box_cases A T.layout false with ⟨heq, _⟩ | ⟨heq, _⟩
    · simp [try_new, heq] at hb
      simp [← hb]
    · simp [try_new, heq] at hb
  · intro b hb
    rcases try_new_box_cases A T.layout false with ⟨heq, _⟩ | ⟨heq, _⟩
    · cases hf : f () with
      | val v =>
          simp [try_new_with, heq, hf] at hb
          exact ⟨v, rfl, by simp [← hb]⟩
      | panic => simp [try_new_with, heq, hf] at hb
    · simp [try_new, try_new_with, heq] at hb
  · intro b hb
    rcases try_new_box_cases A T.layout true with ⟨heq, _⟩ | ⟨heq, _⟩
    · simp [try_new_zeroed, heq] at hb
      simp [← hb, rawAlloc_true_contents]
    · simp [try_new_zeroed, heq] at hb

/-- Witness for C2: the `u8` model under an always-failing allocator; all
three fallible entry points return `None`, and none aborts. -/
theorem c2_witness :
    ((try_new failAlloc byteTy 5).1 = Outcome.retNone
      ∧ (try_new_with failAlloc byteTy (fun _ => ProdResult.val 5)).1
          = Outcome.retNone)
  ∧ (try_new_zeroed failAlloc byteTy byteZero).1 = Outcome.retNone
  ∧ (try_new failAlloc byteTy 5).1 ≠ Outcome.aborted byteTy.layout := by
  have h := c2_fallible_none_on_alloc_failure failAlloc byteTy byteZero 5
    (fun _ => ProdResult.val 5)
  exact ⟨h.1 (by decide) (by decide), h.2.1 (by decide) (by decide),
    (h.2.2.1 byteTy.layout).1⟩

/-- C3: the infallible entry points, on allocator failure, terminate the
process through `handle_alloc_error`, passing exactly the (size, align)
descriptor of the failed request. -/
theorem c3_infallible_abort_with_descriptor {α : Type} (A : Allocator)
    (T : RustTy α) (Z : ZeroCap T) (f : Producer α)
    (hsz : T.layout.size ≠ 0) (h1 : A.alloc T.layout = 0)
    (h2 : A.allocZeroed T.layout = 0) :
    new_with A T f =
      (Outcome.aborted T.layout,
        [Event.allocCall T.layout, Event.handleAllocErrorCall T.layout])
  ∧ new_zeroed A T Z =
      (Outcome.aborted T.layout,
        [Event.allocZeroedCall T.layout,
          Event.handleAllocErrorCall T.layout]) := by
  constructor
  · have htb := try_new_box_alloc_fail A T.layout hsz h1
    simp [new_with, new_box, htb]
  · have htb := try_new_box_zeroed_fail A T.layout hsz h2
    simp [new_zeroed, new_box, htb]

/-- Witness for C3: the `u8` model under an always-failing allocator. -/
theorem c3_witness :
    new_with failAlloc byteTy (fun _ => ProdResult.val 5) =
      (Outcome.aborted byteTy.layout,
        [Event.allocCall byteTy.layout,
          Event.handleAllocErrorCall byteTy.layout])
  ∧ new_zeroed failAlloc byteTy byteZero =
      (Outcome.aborted byteTy.layout,
        [Event.allocZeroedCall byteTy.layout,
          Event.handleAllocErrorCall byteTy.layout]) :=
  c3_infallible_abort_with_descriptor failAlloc byteTy byteZero
    (fun _ => ProdResult.val 5) (by decide) (by decide) (by decide)

/-- Events of the raw primitive are exactly those of its allocation branch,
whether or not the null check passes. -/
theorem try_new_box_events (A : Allocator) (l : Layout) (z : Bool) :
    (try_new_box A l z).2 = (rawAlloc A l z).2.2 := by
  by_cases h : (rawAlloc A l z).1 = 0 <;> simp [try_new_box, h]

/-- C4: for a zero-sized type, every construction entry point succeeds
without any allocator interaction: the traces contain no allocator events,
and the returned box is backed by the dangling sentinel, which is non-null
and correctly aligned.  In particular no fallible entry point returns
`None`. -/
theorem c4_zst_no_allocator_call {α : Type} (A : Allocator) (T : RustTy α)
    (Z : ZeroCap T) (x : α) (f : Producer α) (v : α)
    (hf : f () = ProdResult.val v)
    (hsz : T.layout.size = 0) (hal : 0 < T.layout.align) :
    (new_with A T f =
        (Outcome.success ⟨dangling T.layout, Contents.bytes (T.encode v)⟩,
          [Event.producerCall])
      ∧ new_zeroed A T Z =
          (Outcome.success ⟨dangling T.layout, Contents.bytes []⟩, [])
      ∧ try_new A T x =
          (Outcome.success ⟨dangling T.layout, Contents.bytes (T.encode x)⟩, [])
      ∧ try_new_with A T f =
          (Outcome.success ⟨dangling T.layout, Contents.bytes (T.encode v)⟩,
            [Event.producerCall])
      ∧ try_new_zeroed A T Z =
          (Outcome.success ⟨dangling T.layout, Contents.bytes []⟩, []))
  ∧ dangling T.layout ≠ 0
  ∧ T.layout.align ∣ dangling T.layout := by
  have htbf := try_new_box_zst A T.layout false hsz hal
  have htbt := try_new_box_zst A T.layout true hsz hal
  refine ⟨⟨?_, ?_, ?_, ?_, ?_⟩, ?_, ?_⟩
  · simp [new_with, new_box, htbf, hf, dangling]
  · simp [new_zeroed, new_box, htbt, dangling]
  · simp [try_new, htbf, dangling]
  · simp [try_new_with, htbf, hf, dangling]
  · simp [try_new_zeroed, htbt, dangling]
  · simpa [dangling] using Nat.pos_iff_ne_zero.mp hal
  · exact dvd_refl _

/-- Witness for C4: the zero-sized model succeeds even under an allocator
that always fails, proving the allocator is never consulted. -/
theorem c4_witness :
    (new_with failAlloc unitTy (fun _ => ProdResult.val ()) =
        (Outcome.success ⟨dangling unitTy.layout,
            Contents.bytes (unitTy.encode ())⟩, [Event.producerCall])
      ∧ new_zeroed failAlloc unitTy unitZero =
          (Outcome.success ⟨dangling unitTy.layout, Contents.bytes []⟩, [])
      ∧ try_new failAlloc unitTy () =
          (Outcome.success ⟨dangling unitTy.layout,
              Contents.bytes (unitTy.encode ())⟩, [])
      ∧ try_new_with failAlloc unitTy (fun _ => ProdResult.val ()) =
          (Outcome.success ⟨dangling unitTy.layout,
              Contents.bytes (unitTy.encode ())⟩, [Event.producerCall])
      ∧ try_new_zeroed failAlloc unitTy unitZero =
          (Outcome.success ⟨dangling unitTy.layout, Contents.bytes []⟩, []))
  ∧ dangling unitTy.layout ≠ 0
  ∧ unitTy.layout.align ∣ dangling unitTy.layout :=
  c4_zst_no_allocator_call failAlloc unitTy unitZero () (fun _ => ProdResult.val ())
    () rfl rfl (by decide)

/-- C5: `new_with` and `try_new_with`, when allocation succeeds and the
producer returns a value, invoke the producer exactly once and return a box
holding exactly the bytes of the produced value, whose semantic reading is
that value. -/
theorem c5_construct_with_producer_once {α : Type} (A : Allocator)
    (T : RustTy α) (f : Producer α) (v : α) (hf : f () = ProdResult.val v)
    (hal : 0 < T.layout.align)
    (hA : T.layout.size = 0 ∨ A.alloc T.layout ≠ 0) :
    (∃ b evs, new_with A T f = (Outcome.success b, evs)
      ∧ b.contents = Contents.bytes (T.encode v)
      ∧ T.decode (T.encode v) = some v
      ∧ ∃ pre, evs = pre ++ [Event.producerCall] ∧ Event.producerCall ∉ pre)
  ∧ (∃ b evs, try_new_with A T f = (Outcome.success b, evs)
      ∧ b.contents = Contents.bytes (T.encode v)
      ∧ T.decode (T.encode v) = some v
      ∧ ∃ pre, evs = pre ++ [Event.producerCall] ∧ Event.producerCall ∉ pre) := by
  by_cases hsz : T.layout.size = 0
  · have htb := try_new_box_zst A T.layout false hsz hal
    refine ⟨⟨⟨T.layout.align, Contents.bytes (T.encode v)⟩, [Event.producerCall],
        ?_, rfl, T.decode_encode v, [], by simp, by simp⟩,
      ⟨⟨T.layout.align, Contents.bytes (T.encode v)⟩, [Event.producerCall],
        ?_, rfl, T.decode_encode v, [], by simp, by simp⟩⟩
    · simp [new_with, new_box, htb, hf]
    · simp [try_new_with, htb, hf]
  · have hnz : A.alloc T.layout ≠ 0 := hA.resolve_left hsz
    have htb := try_new_box_alloc_success A T.layout hsz hnz
    refine ⟨⟨⟨A.alloc T.layout, Contents.bytes (T.encode v)⟩,
        [Event.allocCall T.layout, Event.producerCall],
        ?_, rfl, T.decode_encode v, [Event.allocCall T.layout], by simp, by simp⟩,
      ⟨⟨A.alloc T.layout, Contents.bytes (T.encode v)⟩,
        [Event.allocCall T.layout, Event.producerCall],
        ?_, rfl, T.decode_encode v, [Event.allocCall T.layout], by simp, by simp⟩⟩
    · simp [new_with, new_box, htb, hf]
    · simp [try_new_with, htb, hf]

/-- Witness for C5: the `u8` model, a producer yielding 7, a succeeding
allocator. -/
theorem c5_witness :
    (∃ b evs, new_with okAlloc byteTy (fun _ => ProdResult.val 7)
        = (Outcome.success b, evs)
      ∧ b.contents = Contents.bytes (byteTy.encode 7)
      ∧ byteTy.decode (byteTy.encode 7) = some 7
      ∧ ∃ pre, evs = pre ++ [Event.producerCall] ∧ Event.producerCall ∉ pre)
  ∧ (∃ b evs, try_new_with okAlloc byteTy (fun _ => ProdResult.val 7)
        = (Outcome.success b, evs)
      ∧ b.contents = Contents.bytes (byteTy.encode 7)
      ∧ byteTy.decode (byteTy.encode 7) = some 7
      ∧ ∃ pre, evs = pre ++ [Event.producerCall] ∧ Event.producerCall ∉ pre) :=
  c5_construct_with_producer_once okAlloc byteTy (fun _ => ProdResult.val 7) 7
    rfl (by decide) (Or.inr (by decide))

/-- C6: `try_new x` yields the same outcome (success/failure and boxed
value) as `try_new_with` applied to the producer that yields `x`. -/
theorem c6_try_new_refines_try_new_with {α : Type} (A : Allocator)
    (T : RustTy α) (x : α) :
    (try_new A T x).1 = (try_new_with A T (fun _ => ProdResult.val x)).1 := by
  rcases try_new_box_cases A T.layout false with ⟨heq, _⟩ | ⟨heq, _⟩
  · simp [try_new, try_new_with, heq]
  · simp [try_new, try_new_with, heq]

/-- C7: for a non-zero-sized layout, requesting zero-fill makes the raw
primitive call exactly the dedicated `alloc_zeroed` entry point — never the
plain `alloc` entry point and never a separate zeroing pass — and not
requesting it makes the primitive call exactly the plain `alloc` entry
point. -/
theorem c7_zero_fill_dedicated_entry_point (A : Allocator) (l : Layout)
    (hsz : l.size ≠ 0) :
    (try_new_box A l true).2 = [Event.allocZeroedCall l]
  ∧ (∀ l2, Event.allocCall l2 ∉ (try_new_box A l true).2)
  ∧ (∀ a n, Event.memsetCall a n ∉ (try_new_box A l true).2)
  ∧ (try_new_box A l false).2 = [Event.allocCall l]
  ∧ (∀ l2, Event.allocZeroedCall l2 ∉ (try_new_box A l false).2) := by
  have ht : (try_new_box A l true).2 = [Event.allocZeroedCall l] := by
    rw [try_new_box_events]
    simp [rawAlloc, hsz]
  have hfalse : (try_new_box A l false).2 = [Event.allocCall l] := by
    rw [try_new_box_events]
    simp [rawAlloc, hsz]
  refine ⟨ht, ?_, ?_, hfalse, ?_⟩
  · intro l2
    simp [ht]
  · intro a n
    simp [ht]
  · intro l2
    simp [hfalse]

/-- Witness for C7 at the one-byte layout. -/
theorem c7_witness :
    (try_new_box okAlloc ⟨1, 1⟩ true).2 = [Event.allocZeroedCall ⟨1, 1⟩]
  ∧ (∀ l2, Event.allocCall l2 ∉ (try_new_box okAlloc ⟨1, 1⟩ true).2)
  ∧ (∀ a n, Event.memsetCall a n ∉ (try_new_box okAlloc ⟨1, 1⟩ true).2)
  ∧ (try_new_box okAlloc ⟨1, 1⟩ false).2 = [Event.allocCall ⟨1, 1⟩]
  ∧ (∀ l2, Event.allocZeroedCall l2 ∉ (try_new_box okAlloc ⟨1, 1⟩ false).2) :=
  c7_zero_fill_dedicated_entry_point okAlloc ⟨1, 1⟩ (by decide)

/-- C8 counterexample: `u8` holds the capability, yet `[u8; 129]` does not —
length 129 is absent from the `zero_array_impl!` invocations, so `Zero` is
not declared for every fixed-size array of capable element type. -/
theorem c8_counterexample :
    hasZero RTy.u8 = true ∧ hasZero (RTy.array RTy.u8 129) = false := by
  decide

/-- C8 (amended): `Zero` is declared for the listed primitive numeric types,
for both raw pointer shapes, for fixed-size arrays of capable element type
whose length is one of the lengths enumerated in `zero_array_impl!`, and for
tuples of arity 1 through 12 all of whose components are capable. -/
theorem c8_zero_declarations :
    (hasZero RTy.u8 = true ∧ hasZero RTy.u16 = true ∧ hasZero RTy.u32 = true
      ∧ hasZero RTy.u64 = true ∧ hasZero RTy.usize = true
      ∧ hasZero RTy.i8 = true ∧ hasZero RTy.i16 = true ∧ hasZero RTy.i32 = true
      ∧ hasZero RTy.i64 = true ∧ hasZero RTy.isize = true
      ∧ hasZero RTy.f32 = true ∧ hasZero RTy.f64 = true)
  ∧ (hasZero RTy.mutPtr = true ∧ hasZero RTy.constPtr = true)
  ∧ (∀ e n, n ∈ arraySizes → hasZero e = true →
      hasZero (RTy.array e n) = true)
  ∧ (∀ comps : List RTy, 1 ≤ comps.length → comps.length ≤ 12 →
      (∀ c ∈ comps, hasZero c = true) → hasZero (RTy.tuple comps) = true) := by
  refine ⟨by decide, by decide, ?_, ?_⟩
  · intro e n hn he
    simp [hasZero, hn, he]
  · intro comps h1 h12 hall
    simp [hasZero, h1, h12, (hasZeroList_iff comps).mpr hall]

/-- Witness for the amended C8: a supported array length and a pair tuple. -/
theorem c8_witness :
    hasZero (RTy.array RTy.u8 4096) = true
  ∧ hasZero (RTy.tuple [RTy.u8, RTy.f64]) = true := by
  have h := c8_zero_declarations
  exact ⟨h.2.2.1 RTy.u8 4096 (by decide) (by decide),
    h.2.2.2 [RTy.u8, RTy.f64] (by decide) (by decide) (by decide)⟩

/-- C9: when the producer panics after a successful non-zero-size
allocation, the unwinding path of `new_with` / `try_new_with` drops the
already created box while its storage is still uninitialized, so the type's
drop glue runs on uninitialized contents (`Outcome.unwound
[Contents.uninit]`).  The code thus violates the claim that no destructor of
`T` ever runs on uninitialized storage: the local `Box<T>` is created from
the raw allocation *before* the producer is invoked, so unwinding treats the
uninitialized storage as a constructed `T`. -/
theorem c9_panic_drops_uninitialized {α : Type} (A : Allocator)
    (T : RustTy α) (f : Producer α) (hf : f () = ProdResult.panic)
    (hsz : T.layout.size ≠ 0) (hA : A.alloc T.layout ≠ 0) :
    new_with A T f =
      (Outcome.unwound [Contents.uninit],
        [Event.allocCall T.layout, Event.producerCall])
  ∧ try_new_with A T f =
      (Outcome.unwound [Contents.uninit],
        [Event.allocCall T.layout, Event.producerCall]) := by
  have htb := try_new_box_alloc_success A T.layout hsz hA
  constructor
  · simp [new_with, new_box, htb, hf]
  · simp [try_new_with, htb, hf]

/-- Witness for C9: concrete failing input — the `u8` model, a succeeding
allocator, a panicking producer. -/
theorem c9_witness :
    new_with okAlloc byteTy (fun _ => ProdResult.panic) =
      (Outcome.unwound [Contents.uninit],
        [Event.allocCall byteTy.layout, Event.producerCall])
  ∧ try_new_with okAlloc byteTy (fun _ => ProdResult.panic) =
      (Outcome.unwound [Contents.uninit],
        [Event.allocCall byteTy.layout, Event.producerCall]) :=
  c9_panic_drops_uninitialized okAlloc byteTy (fun _ => ProdResult.panic) rfl
    (by decide) (by decide)

/-- C10: allocation strictly precedes producer invocation.  When the
allocator fails, `try_new_with` returns `None` and `new_with` aborts, in
both cases without a producer invocation in the trace; and in general a
producer invocation in a `try_new_with` trace implies the allocation
succeeded (or the type is zero-sized, needing no allocation). -/
theorem c10_alloc_precedes_producer {α : Type} (A : Allocator)
    (T : RustTy α) (f : Producer α) (hsz : T.layout.size ≠ 0)
    (hfail : A.alloc T.layout = 0) :
    (try_new_with A T f = (Outcome.retNone, [Event.allocCall T.layout])
      ∧ Event.producerCall ∉ (try_new_with A T f).2)
  ∧ (new_with A T f =
        (Outcome.aborted T.layout,
          [Event.allocCall T.layout, Event.handleAllocErrorCall T.layout])
      ∧ Event.producerCall ∉ (new_with A T f).2)
  ∧ (∀ (B : Allocator) (g : Producer α),
      Event.producerCall ∈ (try_new_with B T g).2 →
        T.layout.size = 0 ∨ B.alloc T.layout ≠ 0) := by
  have htb := try_new_box_alloc_fail A T.layout hsz hfail
  refine ⟨⟨?_, ?_⟩, ⟨?_, ?_⟩, ?_⟩
  · simp [try_new_with, htb]
  · simp [try_new_with, htb]
  · simp [new_with, new_box, htb]
  · simp [new_with, new_box, htb]
  · intro B g hmem
    by_cases hsz2 : T.layout.size = 0
    · exact Or.inl hsz2
    · right
      intro hB
      have htb2 := try_new_box_alloc_fail B T.layout hsz2 hB
      simp [try_new_with, htb2] at hmem

/-- Witness for C10: the `u8` model under an always-failing allocator. -/
theorem c10_witness :
    (try_new_with failAlloc byteTy (fun _ => ProdResult.val 5)
        = (Outcome.retNone, [Event.allocCall byteTy.layout])
      ∧ Event.producerCall
          ∉ (try_new_with failAlloc byteTy (fun _ => ProdResult.val 5)).2)
  ∧ (new_with failAlloc byteTy (fun _ => ProdResult.val 5) =
        (Outcome.aborted byteTy.layout,
          [Event.allocCall byteTy.layout,
            Event.handleAllocErrorCall byteTy.layout])
      ∧ Event.producerCall
          ∉ (new_with failAlloc byteTy (fun _ => ProdResult.val 5)).2)
  ∧ (∀ (B : Allocator) (g : Producer Nat),
      Event.producerCall ∈ (try_new_with B byteTy g).2 →
        byteTy.layout.size = 0 ∨ B.alloc byteTy.layout ≠ 0) :=
  c10_alloc_precedes_producer failAlloc byteTy (fun _ => ProdResult.val 5)
    (by decide) (by decide)

end Boxext
